import Mathlib

/-!
Shallow embedding of the two command-line scripts of this repository:
`scripts/stt_service.py` (speech-to-text with optional ffmpeg conversion)
and `scripts/tts_generator.py` (Edge TTS wrapper).

External effects (the filesystem, the ffmpeg subprocess, the whisper
recognizer, the TTS client) are modelled by an explicit environment that
fixes their behaviour, and every run produces, besides its result, the
ordered trace of external calls it made and the list of temporary files
still existing on the filesystem when it returns.
-/

namespace Tanoshii

/-- Python str.isspace / str.strip whitespace predicate: the Unicode
whitespace code points that an argument-less `strip()` removes. -/
def isPySpace (c : Char) : Bool :=
  let n := c.toNat
  (decide (0x09 ≤ n) && decide (n ≤ 0x0D)) ||
  (decide (0x1C ≤ n) && decide (n ≤ 0x1F)) ||
  n == 0x20 || n == 0x85 || n == 0xA0 || n == 0x1680 ||
  (decide (0x2000 ≤ n) && decide (n ≤ 0x200A)) ||
  n == 0x2028 || n == 0x2029 || n == 0x202F || n == 0x205F || n == 0x3000

/-- Python `s.strip()`: drop leading and trailing whitespace. -/
def pyStrip (s : String) : String :=
  String.mk (((s.data.dropWhile isPySpace).reverse.dropWhile isPySpace).reverse)

/-- Behaviour of the external `ffmpeg` binary: either absent (invoking it
raises FileNotFoundError) or it runs and reports an exit status and an
error-stream text. -/
inductive FfmpegBehavior where
  | absent : FfmpegBehavior
  | runs (returncode : Int) (errText : String) : FfmpegBehavior
  deriving DecidableEq, Repr

/-- Behaviour of the whisper recognizer on this run: it yields a list of
segment texts, or it raises. -/
inductive RecognizerBehavior where
  | segments (segs : List String) : RecognizerBehavior
  | raises (msg : String) : RecognizerBehavior
  deriving DecidableEq, Repr

/-- One external call made by the STT script. -/
inductive Event where
  | mkstemp (path : String) : Event
  | ffmpegInvoke (input output : String) : Event
  | removeFile (path : String) : Event
  | recognize (audio lang : String) (beamSize : Nat) (vadFilter : Bool)
      (modelSize : String) : Event
  deriving DecidableEq, Repr

def Event.isRecognize : Event → Bool
  | Event.recognize _ _ _ _ _ => true
  | _ => false

def Event.isFfmpegInvoke : Event → Bool
  | Event.ffmpegInvoke _ _ => true
  | _ => false

/-- The environment of one STT run: the WHISPER_MODEL variable, which
paths exist, the path `tempfile.mkstemp` will allocate, and the behaviour
of ffmpeg and of the recognizer. -/
structure Env where
  whisperModel : Option String
  pathExists : String → Bool
  tempWav : String
  ffmpeg : FfmpegBehavior
  recognizer : RecognizerBehavior

/-- `MODEL_SIZE = os.environ.get("WHISPER_MODEL", "small")` (stt_service.py
line 15). -/
def MODEL_SIZE (env : Env) : String :=
  env.whisperModel.getD "small"

/-- The outcome of a piece of the STT script: the returned value (or the
message of the exception raised), the trace of external calls, and the
temporary files existing on the filesystem afterwards. -/
abbrev Run (α : Type) := Except String α × List Event × List String

/-- `convert_to_wav` (stt_service.py lines 28-53): `mkstemp` creates the
temp WAV file, then ffmpeg is invoked on it; a FileNotFoundError becomes
RuntimeError about installing ffmpeg, a non-zero exit status becomes
RuntimeError carrying the tool's error text. The mkstemp file is created
in every case and this function deletes it in none. -/
def convert_to_wav (env : Env) (input_path : String) : Run String :=
  let wav_path := env.tempWav
  let evs := [Event.mkstemp wav_path, Event.ffmpegInvoke input_path wav_path]
  match env.ffmpeg with
  | FfmpegBehavior.absent =>
      (Except.error "ffmpeg not found. Please install ffmpeg: brew install ffmpeg",
       evs, [wav_path])
  | FfmpegBehavior.runs returncode errText =>
      if returncode ≠ 0 then
        (Except.error ("ffmpeg conversion failed: " ++ errText), evs, [wav_path])
      else
        (Except.ok wav_path, evs, [wav_path])

/-- Python `s.endswith(suffix)`: a case-sensitive suffix test on the raw
character sequence. -/
def pyEndsWith (s sfx : String) : Bool :=
  List.isSuffixOf sfx.data s.data

/-- The extension test of stt_service.py line 62:
`audio_path.endswith(".webm") or audio_path.endswith(".ogg")`. -/
def needsConversion (audio_path : String) : Bool :=
  pyEndsWith audio_path ".webm" || pyEndsWith audio_path ".ogg"

/-- `transcribe` (stt_service.py lines 55-82). `wav_path` starts as None;
it is assigned only when `convert_to_wav` returns, so when conversion
raises the `finally` block finds `wav_path` None and removes nothing.
After a successful conversion the finally block removes the temp file on
both the success and the raise path of recognition. -/
def transcribe (env : Env) (audio_path : String) : Run String :=
  if needsConversion audio_path then
    match convert_to_wav env audio_path with
    | (Except.error e, evs, files) =>
        (Except.error e, evs, files)
    | (Except.ok wav, evs, files) =>
        let evs := evs ++ [Event.recognize wav "ja" 5 true (MODEL_SIZE env)]
        match env.recognizer with
        | RecognizerBehavior.segments segs =>
            let text := String.intercalate " " (segs.map (fun s => pyStrip s))
            (Except.ok (pyStrip text), evs ++ [Event.removeFile wav], files.erase wav)
        | RecognizerBehavior.raises msg =>
            (Except.error msg, evs ++ [Event.removeFile wav], files.erase wav)
  else
    let evs := [Event.recognize audio_path "ja" 5 true (MODEL_SIZE env)]
    match env.recognizer with
    | RecognizerBehavior.segments segs =>
        let text := String.intercalate " " (segs.map (fun s => pyStrip s))
        (Except.ok (pyStrip text), evs, [])
    | RecognizerBehavior.raises msg =>
        (Except.error msg, evs, [])

/-- The observable outcome of one whole STT script invocation. -/
structure Outcome where
  exitCode : Nat
  stdout : String
  errOut : String
  events : List Event
  leftover : List String
  deriving DecidableEq, Repr

/-- The `__main__` block of stt_service.py (lines 84-100): usage check,
existence check, then `transcribe` with the top-level exception handler
that prints `Error: <message>` and exits 1. -/
def sttMain (env : Env) (argv : List String) : Outcome :=
  if argv.length < 2 then
    { exitCode := 1, stdout := "",
      errOut := "Usage: python stt_service.py <audio_file_path>",
      events := [], leftover := [] }
  else
    let audio_path := argv.getD 1 ""
    if !env.pathExists audio_path then
      { exitCode := 1, stdout := "",
        errOut := "Error: File not found: " ++ audio_path,
        events := [], leftover := [] }
    else
      match transcribe env audio_path with
      | (Except.ok text, evs, files) =>
          { exitCode := 0, stdout := text, errOut := "",
            events := evs, leftover := files }
      | (Except.error e, evs, files) =>
          { exitCode := 1, stdout := "", errOut := "Error: " ++ e,
            events := evs, leftover := files }

/-- The spec's description of segment concatenation: each segment trimmed
individually, joined with single spaces, the result trimmed once more. -/
def specSegmentConcat (segs : List String) : String :=
  pyStrip (String.intercalate " " (segs.map pyStrip))

/-- One external call made by the TTS script. -/
inductive TTSEvent where
  | communicate (text voice : String) : TTSEvent
  | save (output : String) : TTSEvent
  deriving DecidableEq, Repr

def TTSEvent.isSave : TTSEvent → Bool
  | TTSEvent.save _ => true
  | _ => false

/-- The environment of one TTS run: whether the awaited
`communicate.save(output)` succeeds or raises. -/
structure TTSEnv where
  saveResult : Except String Unit

/-- `generate_audio` (tts_generator.py lines 12-15): construct the
`edge_tts.Communicate(text, voice)` client, then await one
`communicate.save(output)`; a raise from it propagates with no retry. -/
def generate_audio (env : TTSEnv) (text voice output : String) :
    Except String Unit × List TTSEvent :=
  (env.saveResult, [TTSEvent.communicate text voice, TTSEvent.save output])

/-- The parsed argparse options of tts_generator.py: required `--text`,
optional `--voice`, required `--output`. -/
structure TTSArgs where
  text : String
  voice : Option String
  output : String

/-- `main` of tts_generator.py (lines 18-25): argparse supplies the
default voice `ja-JP-NanamiNeural` when `--voice` is omitted, then one
`generate_audio` call is driven to completion. -/
def ttsMain (env : TTSEnv) (args : TTSArgs) :
    Except String Unit × List TTSEvent :=
  generate_audio env args.text (args.voice.getD "ja-JP-NanamiNeural") args.output


/-! Concrete environments used to exercise the model on specific runs. -/

def envC1 : Env :=
  { whisperModel := none, pathExists := fun _ => true, tempWav := "/tmp/conv.wav",
    ffmpeg := FfmpegBehavior.runs 1 "boom", recognizer := RecognizerBehavior.segments ["hi"] }

def envC1ok : Env :=
  { whisperModel := none, pathExists := fun _ => true, tempWav := "/tmp/conv.wav",
    ffmpeg := FfmpegBehavior.runs 0 "", recognizer := RecognizerBehavior.raises "bad audio" }

def envC2 : Env :=
  { whisperModel := none, pathExists := fun _ => true, tempWav := "/tmp/conv.wav",
    ffmpeg := FfmpegBehavior.runs 0 "",
    recognizer := RecognizerBehavior.segments [" こんにちは ", "元気？ "] }

def envC3 : Env :=
  { whisperModel := none, pathExists := fun _ => false, tempWav := "/tmp/conv.wav",
    ffmpeg := FfmpegBehavior.absent, recognizer := RecognizerBehavior.raises "x" }

def envC4 : Env :=
  { whisperModel := none, pathExists := fun _ => true, tempWav := "/tmp/conv.wav",
    ffmpeg := FfmpegBehavior.absent, recognizer := RecognizerBehavior.segments ["ok"] }

def envC5 : Env :=
  { whisperModel := none, pathExists := fun _ => true, tempWav := "/tmp/conv.wav",
    ffmpeg := FfmpegBehavior.absent, recognizer := RecognizerBehavior.segments ["ok"] }

def envC6 : Env :=
  { whisperModel := none, pathExists := fun _ => true, tempWav := "/tmp/conv.wav",
    ffmpeg := FfmpegBehavior.runs 1 "unsupported codec",
    recognizer := RecognizerBehavior.segments ["ok"] }

def envC7 : Env :=
  { whisperModel := none, pathExists := fun _ => true, tempWav := "/tmp/conv.wav",
    ffmpeg := FfmpegBehavior.absent, recognizer := RecognizerBehavior.segments ["ok"] }

def envC8 : TTSEnv := { saveResult := Except.error "network down" }

def argsC8 : TTSArgs := { text := "こんにちは", voice := none, output := "out.mp3" }

def envC9 : Env :=
  { whisperModel := none, pathExists := fun _ => true, tempWav := "/tmp/conv.wav",
    ffmpeg := FfmpegBehavior.absent, recognizer := RecognizerBehavior.segments ["ok"] }

def envC10 : Env :=
  { whisperModel := none, pathExists := fun _ => true, tempWav := "/tmp/conv.wav",
    ffmpeg := FfmpegBehavior.runs 0 "", recognizer := RecognizerBehavior.segments ["ok"] }

/-! Branch characterizations of `transcribe` and `sttMain`. -/

lemma transcribe_noconv (env : Env) (p : String)
    (h : needsConversion p = false) :
    transcribe env p =
      ((match env.recognizer with
        | RecognizerBehavior.segments segs => Except.ok (specSegmentConcat segs)
        | RecognizerBehavior.raises msg => Except.error msg),
       [Event.recognize p "ja" 5 true (MODEL_SIZE env)], []) := by
  cases hrec : env.recognizer <;>
    simp [transcribe, h, hrec, specSegmentConcat]

lemma transcribe_conv_absent (env : Env) (p : String)
    (h : needsConversion p = true) (hf : env.ffmpeg = FfmpegBehavior.absent) :
    transcribe env p =
      (Except.error "ffmpeg not found. Please install ffmpeg: brew install ffmpeg",
       [Event.mkstemp env.tempWav, Event.ffmpegInvoke p env.tempWav],
       [env.tempWav]) := by
  simp [transcribe, convert_to_wav, h, hf]

lemma transcribe_conv_err (env : Env) (p : String) (r : Int) (s : String)
    (h : needsConversion p = true) (hf : env.ffmpeg = FfmpegBehavior.runs r s)
    (hr : r ≠ 0) :
    transcribe env p =
      (Except.error ("ffmpeg conversion failed: " ++ s),
       [Event.mkstemp env.tempWav, Event.ffmpegInvoke p env.tempWav],
       [env.tempWav]) := by
  simp [transcribe, convert_to_wav, h, hf, hr]

lemma transcribe_conv_ok (env : Env) (p : String) (s : String)
    (h : needsConversion p = true) (hf : env.ffmpeg = FfmpegBehavior.runs 0 s) :
    transcribe env p =
      ((match env.recognizer with
        | RecognizerBehavior.segments segs => Except.ok (specSegmentConcat segs)
        | RecognizerBehavior.raises msg => Except.error msg),
       [Event.mkstemp env.tempWav, Event.ffmpegInvoke p env.tempWav,
        Event.recognize env.tempWav "ja" 5 true (MODEL_SIZE env),
        Event.removeFile env.tempWav],
       []) := by
  cases hrec : env.recognizer <;>
    simp [transcribe, convert_to_wav, h, hf, hrec, specSegmentConcat]

lemma sttMain_run (env : Env) (argv : List String)
    (h2 : 2 ≤ argv.length)
    (hex : env.pathExists (argv.getD 1 "") = true) :
    sttMain env argv =
      (match transcribe env (argv.getD 1 "") with
       | (Except.ok text, evs, files) =>
          { exitCode := 0, stdout := text, errOut := "",
            events := evs, leftover := files }
       | (Except.error e, evs, files) =>
          { exitCode := 1, stdout := "", errOut := "Error: " ++ e,
            events := evs, leftover := files }) := by
  have hex2 : env.pathExists (argv[1]?.getD "") = true := by simpa using hex
  simp [sttMain, Nat.not_lt.mpr h2, hex2]

/-! The claims. -/

/-- Claim C1 counterexample: with ffmpeg exiting non-zero on a `.webm`
input, the mkstemp temp WAV file remains on the filesystem after
`transcribe` returns. -/
theorem C1_counterexample :
    needsConversion "a.webm" = true ∧
    (transcribe envC1 "a.webm").2.2 = ["/tmp/conv.wav"] ∧
    ["/tmp/conv.wav"] ≠ ([] : List String) := by
  refine ⟨by decide, by decide, by decide⟩

/-- Claim C1 (amended): the temp WAV is deleted before transcribe returns
whenever conversion succeeds, regardless of recognition outcome; but when
conversion fails (ffmpeg absent or non-zero exit) the mkstemp file is not
deleted and remains on the filesystem. -/
theorem C1_cleanup (env : Env) (p : String) (h : needsConversion p = true) :
    ((∃ s, env.ffmpeg = FfmpegBehavior.runs 0 s) →
      (transcribe env p).2.2 = []) ∧
    ((env.ffmpeg = FfmpegBehavior.absent ∨
      ∃ r s, env.ffmpeg = FfmpegBehavior.runs r s ∧ r ≠ 0) →
      (transcribe env p).2.2 = [env.tempWav]) := by
  constructor
  · rintro ⟨s, hf⟩
    rw [transcribe_conv_ok env p s h hf]
  · rintro (hf | ⟨r, s, hf, hr⟩)
    · rw [transcribe_conv_absent env p h hf]
    · rw [transcribe_conv_err env p r s h hf hr]

theorem C1_cleanup_witness :
    needsConversion "a.webm" = true ∧ (transcribe envC1ok "a.webm").2.2 = [] :=
  ⟨by decide, (C1_cleanup envC1ok "a.webm" (by decide)).1 ⟨"", rfl⟩⟩

/-- Claim C2: whenever recognition runs and yields segments, the result is
each segment trimmed individually, joined with single spaces, trimmed once
more; in particular segments " こんにちは " and "元気？ " give exactly
"こんにちは 元気？". -/
theorem C2_segment_concat (env : Env) (p : String) (segs : List String)
    (hrec : env.recognizer = RecognizerBehavior.segments segs)
    (hok : needsConversion p = false ∨ ∃ s, env.ffmpeg = FfmpegBehavior.runs 0 s) :
    (transcribe env p).1 = Except.ok (specSegmentConcat segs) ∧
    specSegmentConcat [" こんにちは ", "元気？ "] = "こんにちは 元気？" := by
  refine ⟨?_, by decide⟩
  rcases hok with h | ⟨s, hf⟩
  · rw [transcribe_noconv env p h, hrec]
  · rcases hc : needsConversion p with _ | _
    · rw [transcribe_noconv env p hc, hrec]
    · rw [transcribe_conv_ok env p s hc hf, hrec]

theorem C2_segment_concat_witness :
    (transcribe envC2 "a.wav").1 = Except.ok "こんにちは 元気？" := by
  have h := C2_segment_concat envC2 "a.wav" [" こんにちは ", "元気？ "] rfl
    (Or.inl (by decide))
  rw [h.1, h.2]

/-- Claim C3: for a first argument naming a path that does not exist, the
script exits 1, its stderr line mentions the missing path, and no external
call (conversion or recognition) happens. -/
theorem C3_missing_file (env : Env) (argv : List String)
    (h2 : 2 ≤ argv.length)
    (h : env.pathExists (argv.getD 1 "") = false) :
    (sttMain env argv).exitCode = 1 ∧
    (∃ a b, (sttMain env argv).errOut = a ++ argv.getD 1 "" ++ b) ∧
    (sttMain env argv).events = [] := by
  have h2n : ¬ argv.length < 2 := Nat.not_lt.mpr h2
  have h3 : env.pathExists (argv[1]?.getD "") = false := by simpa using h
  refine ⟨?_, ⟨"Error: File not found: ", "", ?_⟩, ?_⟩ <;>
    simp [sttMain, h2n, h3]

theorem C3_missing_file_witness :
    (sttMain envC3 ["stt_service.py", "missing.wav"]).exitCode = 1 ∧
    (∃ a b, (sttMain envC3 ["stt_service.py", "missing.wav"]).errOut =
      a ++ ["stt_service.py", "missing.wav"].getD 1 "" ++ b) ∧
    (sttMain envC3 ["stt_service.py", "missing.wav"]).events = [] :=
  C3_missing_file envC3 ["stt_service.py", "missing.wav"] (by decide) rfl

/-- Claim C4: for an input path not ending in ".webm" or ".ogg", no
temporary file is created (the trace is exactly one recognizer call on the
original, unmodified path) and no temp file exists afterwards. -/
theorem C4_direct_pass (env : Env) (p : String)
    (h : needsConversion p = false) :
    (transcribe env p).2.1 = [Event.recognize p "ja" 5 true (MODEL_SIZE env)] ∧
    (transcribe env p).2.2 = [] := by
  rw [transcribe_noconv env p h]
  exact ⟨rfl, rfl⟩

theorem C4_direct_pass_witness :
    (transcribe envC4 "voice.mp3").2.1 =
      [Event.recognize "voice.mp3" "ja" 5 true (MODEL_SIZE envC4)] ∧
    (transcribe envC4 "voice.mp3").2.2 = [] :=
  C4_direct_pass envC4 "voice.mp3" (by decide)

/-- Claim C5: when ffmpeg is absent and the existing input needs
conversion, the script exits 1, the stderr line instructs installing
ffmpeg, and no recognition call occurs. -/
theorem C5_ffmpeg_absent (env : Env) (argv : List String)
    (h2 : 2 ≤ argv.length)
    (hex : env.pathExists (argv.getD 1 "") = true)
    (hconv : needsConversion (argv.getD 1 "") = true)
    (habs : env.ffmpeg = FfmpegBehavior.absent) :
    (sttMain env argv).exitCode = 1 ∧
    (sttMain env argv).errOut =
      "Error: ffmpeg not found. Please install ffmpeg: brew install ffmpeg" ∧
    ∀ e ∈ (sttMain env argv).events, e.isRecognize = false := by
  rw [sttMain_run env argv h2 hex,
      transcribe_conv_absent env (argv.getD 1 "") hconv habs]
  refine ⟨rfl, rfl, ?_⟩
  intro e he
  simp only [List.mem_cons, List.not_mem_nil, or_false] at he
  rcases he with rfl | rfl <;> rfl

theorem C5_ffmpeg_absent_witness :
    (sttMain envC5 ["stt_service.py", "clip.ogg"]).exitCode = 1 ∧
    (sttMain envC5 ["stt_service.py", "clip.ogg"]).errOut =
      "Error: ffmpeg not found. Please install ffmpeg: brew install ffmpeg" ∧
    ∀ e ∈ (sttMain envC5 ["stt_service.py", "clip.ogg"]).events,
      e.isRecognize = false :=
  C5_ffmpeg_absent envC5 ["stt_service.py", "clip.ogg"] (by decide) rfl (by decide) rfl

/-- Claim C6: when ffmpeg runs but exits non-zero on an existing input
needing conversion, the script exits 1 and the stderr line contains the
error text ffmpeg reported on its error stream. -/
theorem C6_ffmpeg_error_text (env : Env) (argv : List String) (r : Int) (s : String)
    (h2 : 2 ≤ argv.length)
    (hex : env.pathExists (argv.getD 1 "") = true)
    (hconv : needsConversion (argv.getD 1 "") = true)
    (hrun : env.ffmpeg = FfmpegBehavior.runs r s)
    (hr : r ≠ 0) :
    (sttMain env argv).exitCode = 1 ∧
    (∃ a b, (sttMain env argv).errOut = a ++ s ++ b) := by
  rw [sttMain_run env argv h2 hex,
      transcribe_conv_err env (argv.getD 1 "") r s hconv hrun hr]
  refine ⟨rfl, "Error: ffmpeg conversion failed: ", "", ?_⟩
  show "Error: " ++ ("ffmpeg conversion failed: " ++ s) =
    "Error: ffmpeg conversion failed: " ++ s ++ ""
  rw [← String.append_assoc]
  simp

theorem C6_ffmpeg_error_text_witness :
    (sttMain envC6 ["stt_service.py", "clip.webm"]).exitCode = 1 ∧
    (∃ a b, (sttMain envC6 ["stt_service.py", "clip.webm"]).errOut =
      a ++ "unsupported codec" ++ b) :=
  C6_ffmpeg_error_text envC6 ["stt_service.py", "clip.webm"] 1 "unsupported codec"
    (by decide) rfl (by decide) rfl (by decide)

/-- Claim C7: every recognizer call in any transcription run carries
language "ja", beam width 5, voice-activity filtering on, and the model
size read from WHISPER_MODEL with default "small". -/
theorem C7_recognizer_params (env : Env) (p a l : String) (b : Nat) (v : Bool)
    (m : String)
    (hmem : Event.recognize a l b v m ∈ (transcribe env p).2.1) :
    l = "ja" ∧ b = 5 ∧ v = true ∧ m = env.whisperModel.getD "small" := by
  rcases hc : needsConversion p with _ | _
  · rw [transcribe_noconv env p hc] at hmem
    simp only [List.mem_singleton, Event.recognize.injEq] at hmem
    exact ⟨hmem.2.1, hmem.2.2.1, hmem.2.2.2.1, hmem.2.2.2.2⟩
  · rcases hf : env.ffmpeg with _ | ⟨r, s⟩
    · rw [transcribe_conv_absent env p hc hf] at hmem
      simp at hmem
    · rcases hr : decide (r = 0) with _ | _
      · have hr2 : r ≠ 0 := of_decide_eq_false hr
        rw [transcribe_conv_err env p r s hc hf hr2] at hmem
        simp at hmem
      · have hr2 : r = 0 := of_decide_eq_true hr
        rw [hr2] at hf
        rw [transcribe_conv_ok env p s hc hf] at hmem
        simp only [List.mem_cons, List.not_mem_nil, or_false] at hmem
        rcases hmem with h | h | h | h
        · cases h
        · cases h
        · injection h with h1 h2 h3 h4 h5
          exact ⟨h2, h3, h4, h5⟩
        · cases h

theorem C7_recognizer_params_witness :
    "ja" = "ja" ∧ 5 = 5 ∧ true = true ∧
      "small" = envC7.whisperModel.getD "small" :=
  C7_recognizer_params envC7 "voice.wav" "voice.wav" "ja" 5 true "small" (by decide)

/-- Claim C8: every synthesis invocation constructs the client with
exactly the given text and the given voice (defaulting to
ja-JP-NanamiNeural when the voice option is omitted), awaits exactly one
save to the given output path, and does not retry when the client raises. -/
theorem C8_tts_single_save (env : TTSEnv) (args : TTSArgs) :
    (ttsMain env args).2 =
      [TTSEvent.communicate args.text (args.voice.getD "ja-JP-NanamiNeural"),
       TTSEvent.save args.output] ∧
    (ttsMain env args).2.countP TTSEvent.isSave = 1 ∧
    (∀ m, env.saveResult = Except.error m → (ttsMain env args).1 = Except.error m) := by
  refine ⟨rfl, ?_, ?_⟩
  · simp [ttsMain, generate_audio, List.countP_cons, TTSEvent.isSave]
  · intro m hm
    simpa [ttsMain, generate_audio] using hm

theorem C8_tts_single_save_witness :
    (ttsMain envC8 argsC8).2 =
      [TTSEvent.communicate "こんにちは" "ja-JP-NanamiNeural",
       TTSEvent.save "out.mp3"] ∧
    (ttsMain envC8 argsC8).2.countP TTSEvent.isSave = 1 ∧
    (ttsMain envC8 argsC8).1 = Except.error "network down" :=
  ⟨(C8_tts_single_save envC8 argsC8).1,
   (C8_tts_single_save envC8 argsC8).2.1,
   (C8_tts_single_save envC8 argsC8).2.2 "network down" rfl⟩

/-- Claim C9: the conversion test is a case-sensitive suffix check on the
raw path: ".webm" and ".ogg" convert, while ".WEBM" and ".Ogg" variants
are handed to the recognizer unmodified with no temporary file. -/
theorem C9_case_sensitive_suffix :
    needsConversion "a.webm" = true ∧ needsConversion "b.ogg" = true ∧
    needsConversion "a.WEBM" = false ∧ needsConversion "a.Ogg" = false ∧
    needsConversion "a.Webm" = false ∧
    (∀ env : Env, ∀ p : String, needsConversion p = false →
      (transcribe env p).2.1 = [Event.recognize p "ja" 5 true (MODEL_SIZE env)] ∧
      (transcribe env p).2.2 = []) := by
  refine ⟨by decide, by decide, by decide, by decide, by decide, ?_⟩
  intro env p h
  rw [transcribe_noconv env p h]
  exact ⟨rfl, rfl⟩

theorem C9_case_sensitive_suffix_witness :
    needsConversion "a.WEBM" = false ∧
    (transcribe envC9 "a.WEBM").2.1 =
      [Event.recognize "a.WEBM" "ja" 5 true (MODEL_SIZE envC9)] ∧
    (transcribe envC9 "a.WEBM").2.2 = [] :=
  ⟨by decide, C9_case_sensitive_suffix.2.2.2.2.2 envC9 "a.WEBM" (by decide)⟩

/-- Claim C10: two invocations agreeing on argv[1] behave identically
whatever extra arguments follow: the script reads argv[1] alone and never
rejects extra arguments. -/
theorem C10_extra_args_ignored (env : Env) (argv1 argv2 : List String)
    (h1 : 2 ≤ argv1.length) (h2 : 2 ≤ argv2.length)
    (h : argv1.getD 1 "" = argv2.getD 1 "") :
    sttMain env argv1 = sttMain env argv2 := by
  have n1 : ¬ argv1.length < 2 := Nat.not_lt.mpr h1
  have n2 : ¬ argv2.length < 2 := Nat.not_lt.mpr h2
  simp only [sttMain, if_neg n1, if_neg n2, List.getD_eq_getElem?_getD] at h ⊢
  rw [h]

theorem C10_extra_args_ignored_witness :
    sttMain envC10 ["stt_service.py", "a.webm"] =
      sttMain envC10 ["stt_service.py", "a.webm", "--verbose", "extra"] :=
  C10_extra_args_ignored envC10 _ _ (by decide) (by decide) rfl

end Tanoshii
